import Mathlib

/-!
Shallow embedding of the word-chain game bot (src/models/game.py,
src/services/game_manager.py, src/services/word_validator.py,
src/cogs/word_handler.py) and proofs about its specification claims.

Conventions of the embedding:
* Python ints and Discord snowflake ids are modelled as Nat.
* Python dicts keyed by int are modelled as association lists
  (List (Nat × α)) with insertion order preserved; dict assignment
  overwrites the existing key in place, dict.pop removes it.
* Python sets of strings are modelled as duplicate-free lists in
  insertion order.
* datetime fields (created_at, started_at, turn_start_time,
  eliminated_at, played_at) carry no game logic and are omitted from
  the game state; the word-cache timestamps, which do carry logic,
  are modelled as Nat instants on an abstract clock.
* Discord / SQLAlchemy I O is modelled by the data it reads or
  writes: the persisted PlayerStats table and the word cache table
  are explicit values threaded through the functions that touch them.
-/

namespace WordChainBot

/-- Python str.lower, modelled per character.  Char.toLower is exact on
the ASCII range; non-ASCII letters (the Vietnamese letters in the
submission alphabet are already lowercase) are left unchanged. -/
def pyLower (s : String) : String :=
  String.mk (s.data.map Char.toLower)

/-- Python str.strip: remove whitespace from both ends. -/
def pyStrip (s : String) : String :=
  String.mk (((s.data.dropWhile Char.isWhitespace).reverse.dropWhile Char.isWhitespace).reverse)

/-- Python slice s[-n:] for n ≥ 1: the last min(n, len s) characters. -/
def pySliceLast (s : String) (n : Nat) : String :=
  String.mk (s.data.drop (s.data.length - n))

/-- Python str.startswith. -/
def pyStartsWith (s pre : String) : Bool :=
  pre.data.isPrefixOf s.data

/-- Lookup in an association list modelling a Python dict. -/
def dictFind {α : Type} (ps : List (Nat × α)) (k : Nat) : Option α :=
  (ps.find? (fun kv => kv.fst == k)).map Prod.snd

/-- Dict assignment d[k] = v: overwrite the existing binding in place,
else append a new one. -/
def dictSet {α : Type} (ps : List (Nat × α)) (k : Nat) (v : α) : List (Nat × α) :=
  if (ps.find? (fun kv => kv.fst == k)).isSome then
    ps.map (fun kv => if kv.fst == k then (k, v) else kv)
  else
    ps ++ [(k, v)]

/-- In-place mutation of the value stored under a key (modelling Python
code that mutates the shared object held in the dict). -/
def dictUpdate {α : Type} (ps : List (Nat × α)) (k : Nat) (f : α → α) : List (Nat × α) :=
  ps.map (fun kv => if kv.fst == k then (kv.fst, f kv.snd) else kv)

/-- Dict d.pop(k, None): drop the binding for k. -/
def dictErase {α : Type} (ps : List (Nat × α)) (k : Nat) : List (Nat × α) :=
  ps.filter (fun kv => !(kv.fst == k))

/-- config.GameMode constants. -/
inductive GameMode where
  | normal
  | hard
deriving DecidableEq

/-- config.GameStatus constants. -/
inductive GameStatus where
  | waiting
  | active
  | finished
deriving DecidableEq

/-- models/game.py PlayerInfo dataclass. -/
structure PlayerInfo where
  user_id : Nat
  username : String := ""
  display_name : String := ""
  turn_order : Nat := 0
  is_eliminated : Bool := false
  elimination_order : Option Nat := none
  words_played : Nat := 0
  invalid_attempts : Nat := 0
deriving DecidableEq

/-- models/game.py WordChainGame dataclass (datetime and Discord
message-id fields omitted, see the module comment). -/
structure WordChainGame where
  session_id : Nat
  guild_id : Nat
  channel_id : Nat
  creator_id : Nat
  game_mode : GameMode := GameMode.normal
  timer_seconds : Nat := 30
  status : GameStatus := GameStatus.waiting
  players : List (Nat × PlayerInfo) := []
  turn_order_list : List Nat := []
  current_turn_index : Nat := 0
  current_chain_number : Nat := 1
  chain_resets : Nat := 0
  current_chain_words : List String := []
  used_words_in_session : List String := []
  last_word : Option String := none
  elimination_count : Nat := 0
deriving DecidableEq

namespace WordChainGame

/-- WordChainGame.letters_to_match property. -/
def letters_to_match (g : WordChainGame) : Nat :=
  if g.game_mode = GameMode.hard then 2 else 1

/-- WordChainGame.required_start property.  Python tests
"if not self.last_word", which is true for None and for the empty
string. -/
def required_start (g : WordChainGame) : Option String :=
  match g.last_word with
  | none => none
  | some w => if w = "" then none else some (pyLower (pySliceLast w g.letters_to_match))

/-- Elimination flag of the player stored under uid.  Python indexes
self.players[uid] directly and would raise KeyError on a missing key;
theorems about states reached by the code carry a well-formedness
hypothesis ruling that out. -/
def player_is_eliminated (g : WordChainGame) (uid : Nat) : Bool :=
  match dictFind g.players uid with
  | some p => p.is_eliminated
  | none => false

/-- Active subset of turn_order_list, as computed inside
current_player_id and next_turn. -/
def active_ids (g : WordChainGame) : List Nat :=
  g.turn_order_list.filter (fun uid => !(g.player_is_eliminated uid))

/-- WordChainGame.current_player_id property. -/
def current_player_id (g : WordChainGame) : Option Nat :=
  if g.turn_order_list.isEmpty then none
  else
    let ap := g.active_ids
    if ap.isEmpty then none
    else ap.get? (g.current_turn_index % ap.length)

/-- WordChainGame.active_players property (players dict values,
eliminated ones filtered out). -/
def active_players (g : WordChainGame) : List PlayerInfo :=
  (g.players.map Prod.snd).filter (fun p => !p.is_eliminated)

/-- WordChainGame.active_player_count property. -/
def active_player_count (g : WordChainGame) : Nat :=
  g.active_players.length

/-- WordChainGame.is_game_over property. -/
def is_game_over (g : WordChainGame) : Bool :=
  decide (g.active_player_count ≤ 1) && decide (g.status = GameStatus.active)

/-- WordChainGame.winner property. -/
def winner (g : WordChainGame) : Option PlayerInfo :=
  if g.active_player_count = 1 then g.active_players.head? else none

/-- WordChainGame.add_player. -/
def add_player (g : WordChainGame) (uid : Nat) (username display_name : String) :
    WordChainGame × PlayerInfo :=
  let player : PlayerInfo :=
    { user_id := uid, username := username, display_name := display_name,
      turn_order := g.players.length }
  ({ g with players := dictSet g.players uid player,
            turn_order_list := g.turn_order_list ++ [uid] },
   player)

/-- WordChainGame.eliminate_player.  Note: the source guards only
against a uid that is not in the players dict; an already-eliminated
player is eliminated again (elimination_count is re-incremented and
elimination_order re-assigned). -/
def eliminate_player (g : WordChainGame) (uid : Nat) : WordChainGame × Option PlayerInfo :=
  match dictFind g.players uid with
  | some p =>
      let count := g.elimination_count + 1
      let p2 : PlayerInfo := { p with is_eliminated := true, elimination_order := some count }
      ({ g with players := dictUpdate g.players uid (fun _ => p2),
                elimination_count := count },
       some p2)
  | none => (g, none)

/-- WordChainGame.start_game (timestamps omitted). -/
def start_game (g : WordChainGame) : WordChainGame :=
  { g with status := GameStatus.active, current_turn_index := 0 }

/-- WordChainGame.next_turn. -/
def next_turn (g : WordChainGame) : WordChainGame × Option Nat :=
  let ap := g.turn_order_list.filter (fun uid => !(g.player_is_eliminated uid))
  if ap.length ≤ 1 then (g, none)
  else
    let g2 : WordChainGame := { g with current_turn_index := (g.current_turn_index + 1) % ap.length }
    (g2, g2.current_player_id)

/-- WordChainGame.reset_chain. -/
def reset_chain (g : WordChainGame) : WordChainGame :=
  { g with chain_resets := g.chain_resets + 1,
           current_chain_number := g.current_chain_number + 1,
           current_chain_words := [],
           last_word := none }

/-- WordChainGame.add_word. -/
def add_word (g : WordChainGame) (word : String) (uid : Nat) : WordChainGame :=
  let word_lower := pyLower word
  let used :=
    if g.used_words_in_session.contains word_lower then g.used_words_in_session
    else g.used_words_in_session ++ [word_lower]
  let g2 : WordChainGame :=
    { g with current_chain_words := g.current_chain_words ++ [word_lower],
             used_words_in_session := used,
             last_word := some word_lower }
  if (dictFind g2.players uid).isSome then
    let ps := dictUpdate g2.players uid (fun p => { p with words_played := p.words_played + 1 })
    { g2 with players := ps }
  else g2

/-- WordChainGame.is_word_used. -/
def is_word_used (g : WordChainGame) (word : String) : Bool :=
  g.used_words_in_session.contains (pyLower word)

/-- WordChainGame.matches_required_start.  Python tests
"if not self.required_start", true for None and the empty string. -/
def matches_required_start (g : WordChainGame) (word : String) : Bool :=
  match g.required_start with
  | none => true
  | some rs => if rs = "" then true else pyStartsWith (pyLower word) rs

end WordChainGame

/-- models/db_models.py PlayerStats row (persisted aggregate stats,
one row per (user_id, guild_id); id and timestamp columns omitted). -/
structure PlayerStats where
  user_id : Nat
  guild_id : Nat
  games_played : Nat := 0
  games_won : Nat := 0
  total_words : Nat := 0
  longest_word : Option String := none
  total_timeouts : Nat := 0
  total_invalid_words : Nat := 0
  current_win_streak : Nat := 0
  best_win_streak : Nat := 0
deriving DecidableEq

/-- The persisted player_stats table. -/
abbrev StatsDB := List PlayerStats

/-- SELECT from player_stats by the unique (user_id, guild_id) key. -/
def statsFind (db : StatsDB) (uid gid : Nat) : Option PlayerStats :=
  db.find? (fun s => s.user_id == uid && s.guild_id == gid)

/-- services/game_manager.py GameManager fields: the module-level
active-games dict (channel_id to game) and, abstracted to the set of
channels owning one, the timer-task dict. -/
structure GameManagerState where
  active_games : List (Nat × WordChainGame) := []
  timer_channels : List Nat := []
deriving DecidableEq

namespace GameManagerState

/-- GameManager.get_game. -/
def get_game (m : GameManagerState) (channel_id : Nat) : Option WordChainGame :=
  dictFind m.active_games channel_id

/-- GameManager.has_active_game. -/
def has_active_game (m : GameManagerState) (channel_id : Nat) : Bool :=
  (m.get_game channel_id).isSome

/-- Writing back a game object: Python methods mutate the shared
WordChainGame instance held in the dict, which the pure embedding
renders as storing the new value under the channel key. -/
def store_game (m : GameManagerState) (channel_id : Nat) (g : WordChainGame) : GameManagerState :=
  { m with active_games := dictSet m.active_games channel_id g }

/-- GameManager.set_timer_task (the asyncio task itself is abstracted
to its channel key). -/
def set_timer_task (m : GameManagerState) (channel_id : Nat) : GameManagerState :=
  { m with timer_channels :=
      if m.timer_channels.contains channel_id then m.timer_channels
      else m.timer_channels ++ [channel_id] }

/-- GameManager.cancel_timer_task / TimerManager.stop_timer. -/
def cancel_timer_task (m : GameManagerState) (channel_id : Nat) : GameManagerState :=
  { m with timer_channels := m.timer_channels.filter (fun c => !(c == channel_id)) }

/-- GameManager.record_word (the SessionWord / GameParticipant rows it
inserts are not read back by any claim and are omitted). -/
def record_word (m : GameManagerState) (channel_id : Nat) (word : String) (uid : Nat) :
    GameManagerState × Bool :=
  match m.get_game channel_id with
  | none => (m, false)
  | some g =>
    if g.status ≠ GameStatus.active then (m, false)
    else (m.store_game channel_id (g.add_word word uid), true)

/-- GameManager.eliminate_player: status guard, in-memory elimination,
then reset_chain. -/
def eliminate_player (m : GameManagerState) (channel_id uid : Nat) :
    GameManagerState × Option PlayerInfo :=
  match m.get_game channel_id with
  | none => (m, none)
  | some g =>
    if g.status ≠ GameStatus.active then (m, none)
    else
      match g.eliminate_player uid with
      | (_, none) => (m, none)
      | (g1, some p) => (m.store_game channel_id g1.reset_chain, some p)

/-- GameManager.forfeit_player delegates to eliminate_player. -/
def forfeit_player (m : GameManagerState) (channel_id uid : Nat) :
    GameManagerState × Option PlayerInfo :=
  m.eliminate_player channel_id uid

/-- GameManager.record_invalid_attempt. -/
def record_invalid_attempt (m : GameManagerState) (channel_id uid : Nat) :
    GameManagerState × Bool :=
  match m.get_game channel_id with
  | none => (m, false)
  | some g =>
    match dictFind g.players uid with
    | none => (m, false)
    | some _ =>
      let ps := dictUpdate g.players uid (fun p => { p with invalid_attempts := p.invalid_attempts + 1 })
      (m.store_game channel_id { g with players := ps }, true)

end GameManagerState

/-- One player's slice of GameManager._update_player_stats: get or
create the stats row, bump the aggregate counters, write it back. -/
def update_one_player_stats (db : StatsDB) (gid : Nat) (winner_id : Option Nat)
    (player : PlayerInfo) : StatsDB :=
  let base : PlayerStats :=
    match statsFind db player.user_id gid with
    | some s => s
    | none => { user_id := player.user_id, guild_id := gid }
  let s1 : PlayerStats :=
    { base with games_played := base.games_played + 1,
                total_words := base.total_words + player.words_played,
                total_invalid_words := base.total_invalid_words + player.invalid_attempts }
  let s2 : PlayerStats :=
    if player.is_eliminated then
      { s1 with total_timeouts := s1.total_timeouts + 1, current_win_streak := 0 }
    else s1
  let s3 : PlayerStats :=
    if winner_id = some player.user_id then
      let sw : PlayerStats :=
        { s2 with games_won := s2.games_won + 1, current_win_streak := s2.current_win_streak + 1 }
      if sw.current_win_streak > sw.best_win_streak then
        { sw with best_win_streak := sw.current_win_streak }
      else sw
    else s2
  match statsFind db player.user_id gid with
  | some _ => db.map (fun s => if s.user_id == player.user_id && s.guild_id == gid then s3 else s)
  | none => db ++ [s3]

/-- GameManager._update_player_stats: fold over game.players.values(). -/
def update_player_stats (db : StatsDB) (g : WordChainGame) (winner_id : Option Nat) : StatsDB :=
  (g.players.map Prod.snd).foldl (fun acc p => update_one_player_stats acc g.guild_id winner_id p) db

namespace GameManagerState

/-- GameManager.end_game: pop the game from the active set, cancel its
timer task, determine the winner, mark finished, update stats. -/
def end_game (m : GameManagerState) (db : StatsDB) (channel_id : Nat)
    (winner_id : Option Nat) : GameManagerState × StatsDB × Option WordChainGame :=
  match dictFind m.active_games channel_id with
  | none => (m, db, none)
  | some g =>
    let m1 : GameManagerState :=
      { m with active_games := dictErase m.active_games channel_id,
               timer_channels := m.timer_channels.filter (fun c => !(c == channel_id)) }
    let w : Option Nat :=
      match winner_id with
      | some wid => some wid
      | none => g.winner.map PlayerInfo.user_id
    let g2 : WordChainGame := { g with status := GameStatus.finished }
    (m1, update_player_stats db g2 w, some g2)

end GameManagerState

/-- services/word_validator.py WordValidationResult dataclass. -/
structure WordValidationResult where
  word : String
  is_valid : Bool
  is_plural : Bool := false
  word_type : Option String := none
  reason : Option String := none
  from_cache : Bool := false
deriving DecidableEq

/-- WordValidationResult.is_acceptable property. -/
def WordValidationResult.is_acceptable (r : WordValidationResult) : Bool :=
  r.is_valid && !r.is_plural

/-- models/db_models.py WordCache row; validated_at is an instant on an
abstract Nat clock (the source stores a datetime). -/
structure WordCache where
  word : String
  language : String
  is_valid : Bool
  is_plural : Bool := false
  word_type : Option String := none
  ai_reason : Option String := none
  validated_at : Nat
deriving DecidableEq

/-- Key predicate of the unique (word, language) constraint. -/
def cacheKeyMatch (word language : String) (e : WordCache) : Bool :=
  e.word == word && e.language == language

/-- WordValidator._check_cache: a row is served only when its
validated_at is at or after now minus the expiry window. -/
def check_cache (cache : List WordCache) (word language : String) (now ttl : Nat) :
    Option WordValidationResult :=
  let cache_expiry := now - ttl
  match cache.find? (fun e => cacheKeyMatch word language e && decide (cache_expiry ≤ e.validated_at)) with
  | some c =>
      some { word := word, is_valid := c.is_valid, is_plural := c.is_plural,
             word_type := c.word_type, reason := c.ai_reason, from_cache := true }
  | none => none

/-- The in-place UPDATE _store_in_cache performs on the existing row:
overwrite the verdict columns and stamp validated_at with now. -/
def overwrite_entry (result : WordValidationResult) (now : Nat) (e : WordCache) : WordCache :=
  { e with is_valid := result.is_valid, is_plural := result.is_plural,
           word_type := result.word_type, ai_reason := result.reason,
           validated_at := now }

/-- The INSERT _store_in_cache performs when no row exists for the
key (validated_at comes from the column default, the current time). -/
def fresh_entry (word language : String) (result : WordValidationResult)
    (now : Nat) : WordCache :=
  { word := word, language := language, is_valid := result.is_valid,
    is_plural := result.is_plural, word_type := result.word_type,
    ai_reason := result.reason, validated_at := now }

/-- WordValidator._store_in_cache: update the existing (word, language)
row in place, else insert a new one stamped now. -/
def store_in_cache (cache : List WordCache) (word language : String)
    (result : WordValidationResult) (now : Nat) : List WordCache :=
  match cache.find? (cacheKeyMatch word language) with
  | some _ =>
      cache.map (fun e =>
        if cacheKeyMatch word language e then overwrite_entry result now e else e)
  | none =>
      cache ++ [fresh_entry word language result now]

/-- WordValidator.validate_word.  The network call
_validate_with_dictionary is an external effect; its would-be result is
passed in as the provider argument, and the returned Bool records
whether the provider was actually consulted (false means the verdict
was served from the cache). -/
def validate_word (cache : List WordCache) (word language : String)
    (provider : WordValidationResult) (now ttl : Nat) :
    WordValidationResult × List WordCache × Bool :=
  let word_lower := pyStrip (pyLower word)
  match check_cache cache word_lower language now ttl with
  | some r => (r, cache, false)
  | none => (provider, store_in_cache cache word_lower language provider now, true)

/-- Observable outcome of one inbound message, standing in for the
embeds the cog sends. -/
inductive SubmissionOutcome where
  | ignored
  | rejected_already_used
  | rejected_wrong_start
  | rejected_plural
  | rejected_invalid
  | accepted_next_turn (next_player : Nat)
  | accepted_game_end (winner_id : Option Nat)
deriving DecidableEq

/-- WordHandler._update_longest_word: during play, after each accepted
word, overwrite the longest_word column of the submitting player's
stats row when the new word is strictly longer (no-op when the row
does not exist yet). -/
def update_longest_word (db : StatsDB) (uid gid : Nat) (word : String) : StatsDB :=
  match statsFind db uid gid with
  | none => db
  | some s =>
    let should : Bool :=
      match s.longest_word with
      | none => true
      | some lw => if lw = "" then true else decide (word.length > lw.length)
    if should then
      db.map (fun t =>
        if t.user_id == uid && t.guild_id == gid then { t with longest_word := some word } else t)
    else db

/-- WordHandler._end_game: stop the timer, compute the winner from the
game object in hand, delegate to GameManager.end_game.  Returns the
winner id announced in the final embed. -/
def end_game_handler (m : GameManagerState) (db : StatsDB) (channel_id : Nat)
    (g : WordChainGame) : GameManagerState × StatsDB × Option Nat :=
  let m0 := m.cancel_timer_task channel_id
  let winner_id := g.winner.map PlayerInfo.user_id
  let r := m0.end_game db channel_id winner_id
  (r.fst, r.snd.fst, winner_id)

/-- WordHandler._process_word (reached only when the author holds the
turn).  The word-validator verdict for the submitted word is passed in
as validation; the embeds it sends become the SubmissionOutcome. -/
def process_word (m : GameManagerState) (db : StatsDB) (channel_id author_id : Nat)
    (word : String) (validation : WordValidationResult) :
    GameManagerState × StatsDB × SubmissionOutcome :=
  match m.get_game channel_id with
  | none => (m, db, SubmissionOutcome.ignored)
  | some g =>
    match dictFind g.players author_id with
    | none => (m, db, SubmissionOutcome.ignored)
    | some _ =>
      if g.is_word_used word then
        ((m.record_invalid_attempt channel_id author_id).fst, db,
         SubmissionOutcome.rejected_already_used)
      else if !(g.matches_required_start word) then
        ((m.record_invalid_attempt channel_id author_id).fst, db,
         SubmissionOutcome.rejected_wrong_start)
      else if validation.is_plural then
        ((m.record_invalid_attempt channel_id author_id).fst, db,
         SubmissionOutcome.rejected_plural)
      else if !validation.is_valid then
        ((m.record_invalid_attempt channel_id author_id).fst, db,
         SubmissionOutcome.rejected_invalid)
      else
        let m1 := (m.record_word channel_id word author_id).fst
        let db1 := update_longest_word db author_id g.guild_id word
        match m1.get_game channel_id with
        | none => (m1, db1, SubmissionOutcome.ignored)
        | some g1 =>
          match g1.next_turn with
          | (g2, some next_id) =>
            ((m1.store_game channel_id g2).set_timer_task channel_id, db1,
             SubmissionOutcome.accepted_next_turn next_id)
          | (g2, none) =>
            let r := end_game_handler (m1.store_game channel_id g2) db1 channel_id g2
            (r.fst, r.snd.fst, SubmissionOutcome.accepted_game_end r.snd.snd)

/-- Lowercase submission alphabet of the WordHandler.on_message regex
(ASCII letters plus the Vietnamese letters listed in the pattern). -/
def vietnamese_letters : List Char :=
  "àáảãạăắằẳẵặâấầẩẫậèéẻẽẹêếềểễệìíỉĩịòóỏõọôốồổỗộơớờởỡợùúủũụưứừửữựỳýỷỹỵđ".data

/-- One character of the submission regex character class. -/
def submission_char_ok (c : Char) : Bool :=
  (decide ('a' ≤ c) && decide (c ≤ 'z')) ||
  (decide ('A' ≤ c) && decide (c ≤ 'Z')) ||
  vietnamese_letters.contains c

/-- The re.match guard of on_message: nonempty, letters only. -/
def word_format_ok (w : String) : Bool :=
  !(w.data.isEmpty) && w.data.all submission_char_ok

/-- WordHandler.on_message: guards (bot author, active game in the
channel, author holds the turn, word shape), then _process_word. -/
def on_message (m : GameManagerState) (db : StatsDB) (channel_id author_id : Nat)
    (author_is_bot : Bool) (content : String) (validation : WordValidationResult) :
    GameManagerState × StatsDB × SubmissionOutcome :=
  if author_is_bot then (m, db, SubmissionOutcome.ignored)
  else
    match m.get_game channel_id with
    | none => (m, db, SubmissionOutcome.ignored)
    | some g =>
      if g.status ≠ GameStatus.active then (m, db, SubmissionOutcome.ignored)
      else if some author_id ≠ g.current_player_id then (m, db, SubmissionOutcome.ignored)
      else
        let word := pyLower (pyStrip content)
        if !(word_format_ok word) then (m, db, SubmissionOutcome.ignored)
        else process_word m db channel_id author_id word validation

/-- Observable outcome of a timeout or forfeit handler run. -/
inductive HandlerEvent where
  | no_effect
  | eliminated_next (uid : Nat) (remaining : Nat)
  | eliminated_game_end (uid : Nat) (winner_id : Option Nat)
deriving DecidableEq

/-- WordHandler._handle_timeout: re-fetch the live game, eliminate the
captured player, re-fetch, then either end the game or advance the
turn and restart the timer. -/
def handle_timeout (m : GameManagerState) (db : StatsDB) (channel_id user_id : Nat) :
    GameManagerState × StatsDB × HandlerEvent :=
  match m.get_game channel_id with
  | none => (m, db, HandlerEvent.no_effect)
  | some _ =>
    match m.eliminate_player channel_id user_id with
    | (m1, none) => (m1, db, HandlerEvent.no_effect)
    | (m1, some _) =>
      match m1.get_game channel_id with
      | none => (m1.cancel_timer_task channel_id, db, HandlerEvent.no_effect)
      | some g2 =>
        let remaining := g2.active_player_count
        if remaining ≤ 1 then
          let r := end_game_handler m1 db channel_id g2
          (r.fst, r.snd.fst, HandlerEvent.eliminated_game_end user_id r.snd.snd)
        else
          let g3 := g2.next_turn.fst
          ((m1.store_game channel_id g3).set_timer_task channel_id, db,
           HandlerEvent.eliminated_next user_id remaining)

/-- WordHandler._handle_forfeit: stop the timer, remember whether the
forfeiting player held the turn, eliminate, then either end the game
or (only when they held the turn) advance it before restarting the
timer. -/
def handle_forfeit (m : GameManagerState) (db : StatsDB) (channel_id user_id : Nat) :
    GameManagerState × StatsDB × HandlerEvent :=
  let m0 := m.cancel_timer_task channel_id
  match m0.get_game channel_id with
  | none => (m0, db, HandlerEvent.no_effect)
  | some g =>
    let was_current := g.current_player_id = some user_id
    match m0.forfeit_player channel_id user_id with
    | (m1, none) => (m1, db, HandlerEvent.no_effect)
    | (m1, some _) =>
      match m1.get_game channel_id with
      | none => (m1, db, HandlerEvent.no_effect)
      | some g2 =>
        let remaining := g2.active_player_count
        if remaining ≤ 1 then
          let r := end_game_handler m1 db channel_id g2
          (r.fst, r.snd.fst, HandlerEvent.eliminated_game_end user_id r.snd.snd)
        else
          let m2 := if was_current then m1.store_game channel_id g2.next_turn.fst else m1
          (m2.set_timer_task channel_id, db, HandlerEvent.eliminated_next user_id remaining)

/-- Shorthand for the state after GameManager.record_invalid_attempt,
the only mutation a rejected submission performs. -/
def penalize (m : GameManagerState) (channel_id uid : Nat) : GameManagerState :=
  (m.record_invalid_attempt channel_id uid).fst

/-- Turn-engine operations quantified over in the reachability claim:
an eliminate_player call or a next_turn call. -/
inductive TurnOp where
  | elim (uid : Nat)
  | next
deriving DecidableEq

/-- Apply one turn-engine operation (dropping the returned value, as
the state is what the invariant speaks about). -/
def apply_turn_op (g : WordChainGame) (op : TurnOp) : WordChainGame :=
  match op with
  | TurnOp.elim uid => (g.eliminate_player uid).fst
  | TurnOp.next => g.next_turn.fst

/-- Apply a sequence of turn-engine operations. -/
def apply_turn_ops (g : WordChainGame) (ops : List TurnOp) : WordChainGame :=
  ops.foldl apply_turn_op g

/-- Well-formedness maintained by the code: every user id in
turn_order_list has an entry in the players dict (Python would raise
KeyError otherwise). -/
def turn_list_wf (g : WordChainGame) : Prop :=
  ∀ uid ∈ g.turn_order_list, (dictFind g.players uid).isSome = true

/-- Projection of a PlayerStats row onto everything except
longest_word. -/
def statsCounters (s : PlayerStats) :
    Nat × Nat × Nat × Nat × Nat × Nat × Nat × Nat × Nat :=
  (s.user_id, s.guild_id, s.games_played, s.games_won, s.total_words,
   s.total_timeouts, s.total_invalid_words, s.current_win_streak, s.best_win_streak)

/-- Projection of a PlayerStats row onto its key and longest_word. -/
def statsKeyLongest (s : PlayerStats) : Nat × Nat × Option String :=
  (s.user_id, s.guild_id, s.longest_word)

/-- Concrete three-player scenario (players A=1, B=2, C=3 join in that
order, then the game starts) used by several claims. -/
def scenario_base : WordChainGame :=
  { session_id := 7, guild_id := 10, channel_id := 100, creator_id := 1 }

/-- The started scenario game: A, B, C joined in order, status active,
turn index 0. -/
def scenario_start : WordChainGame :=
  ((((scenario_base.add_player 1 "a" "A").fst.add_player 2 "b" "B").fst.add_player 3 "c" "C").fst).start_game

/-- Manager owning the scenario game on channel 100. -/
def scenario_m0 : GameManagerState :=
  { active_games := [(100, scenario_start)], timer_channels := [] }

/-- Validator verdict for the scenario word "sea": a valid,
non-plural dictionary word. -/
def v_sea : WordValidationResult :=
  { word := "sea", is_valid := true }

/-- Scenario step 1: A submits the unused valid word "sea". -/
def scenario_after_word : GameManagerState × StatsDB × SubmissionOutcome :=
  on_message scenario_m0 [] 100 1 false "sea" v_sea

/-- Manager state after scenario step 1. -/
def scenario_m1 : GameManagerState := scenario_after_word.fst

/-- The scenario game as stored after step 1. -/
def scenario_g1 : WordChainGame := (scenario_m1.get_game 100).getD scenario_base

/-- Scenario step 2: B (the current player) times out. -/
def scenario_after_timeout : GameManagerState × StatsDB × HandlerEvent :=
  handle_timeout scenario_m1 [] 100 2

/-- Manager state after scenario step 2. -/
def scenario_m2 : GameManagerState := scenario_after_timeout.fst

/-- The scenario game as stored after step 2. -/
def scenario_g2 : WordChainGame := (scenario_m2.get_game 100).getD scenario_base

/-- Scenario step 3: C forfeits. -/
def scenario_after_forfeit : GameManagerState × StatsDB × HandlerEvent :=
  handle_forfeit scenario_m2 [] 100 3

/-- Manager state after scenario step 3. -/
def scenario_m3 : GameManagerState := scenario_after_forfeit.fst

/-- A second timeout-handler run for the same already-eliminated
player B, starting from the state the first run produced. -/
def scenario_double_timeout : GameManagerState × StatsDB × HandlerEvent :=
  handle_timeout scenario_m2 [] 100 2

/-- Minimal failing input for the eliminate_player idempotence claim:
player 2 is already eliminated with rank 1. -/
def c2_game : WordChainGame :=
  { session_id := 1, guild_id := 1, channel_id := 5, creator_id := 1,
    status := GameStatus.active,
    players := [(1, { user_id := 1 }),
                (2, { user_id := 2, turn_order := 1, is_eliminated := true,
                      elimination_order := some 1 })],
    turn_order_list := [1, 2],
    elimination_count := 1 }

/-- Stats table for the longest-word counterexample: player 1 already
holds a stats row whose longest_word is "cat". -/
def c8_db : StatsDB :=
  [{ user_id := 1, guild_id := 10, longest_word := some "cat" }]

/-- Validator verdict for "elephant": valid, non-plural. -/
def v_elephant : WordValidationResult :=
  { word := "elephant", is_valid := true }

/-- The accepted-word run for the longest-word counterexample: player 1
submits "elephant" to the active scenario game. -/
def c8_run : GameManagerState × StatsDB × SubmissionOutcome :=
  on_message scenario_m0 c8_db 100 1 false "elephant" v_elephant

/-- Fresh game with no last word (for the required-start claims). -/
def c6_fresh_game : WordChainGame :=
  { session_id := 2, guild_id := 1, channel_id := 6, creator_id := 1 }

/-- Hard-mode game whose last word is "running". -/
def c6_hard_game : WordChainGame :=
  { c6_fresh_game with game_mode := GameMode.hard, status := GameStatus.active,
                       last_word := some "running" }

/-- Hard-mode game whose last word is the single letter "a". -/
def c10_game : WordChainGame :=
  { c6_fresh_game with game_mode := GameMode.hard, status := GameStatus.active,
                       last_word := some (String.mk ['a']) }

/-- Word cache holding a single stale row for ("sea", "en"). -/
def c9_stale_cache : List WordCache :=
  [{ word := "sea", language := "en", is_valid := true, validated_at := 50 }]

/-- The single mutation record_invalid_attempt performs on the stored
game: bump the submitting player's invalid_attempts counter. -/
def bump_invalid_attempts (g : WordChainGame) (a : Nat) : WordChainGame :=
  { g with players := dictUpdate g.players a (fun q => { q with invalid_attempts := q.invalid_attempts + 1 }) }

/-- Stats table holding a row for each of the three scenario players. -/
def c8_full_db : StatsDB :=
  [{ user_id := 1, guild_id := 10, games_played := 4, longest_word := some "cat" },
   { user_id := 2, guild_id := 10, games_played := 2, longest_word := some "zebra" },
   { user_id := 3, guild_id := 10, games_played := 1, longest_word := none }]

end WordChainBot

namespace WordChainBot

theorem dictFind_dictUpdate {α : Type} (ps : List (Nat × α)) (k j : Nat) (f : α → α) :
    dictFind (dictUpdate ps k f) j =
      if j = k then (dictFind ps j).map f else dictFind ps j := by
  induction ps with
  | nil =>
    simp only [dictFind, dictUpdate, List.map_nil, List.find?_nil, Option.map_none']
    split <;> rfl
  | cons kv tl ih =>
    by_cases hj : kv.fst = j
    · by_cases hk : kv.fst = k
      · have hjk : j = k := by rw [← hj, hk]
        subst hj; subst hjk
        simp [dictFind, dictUpdate, List.find?_cons]
      · have hjk : ¬(j = k) := by rw [← hj]; exact hk
        subst hj
        simp [dictFind, dictUpdate, List.find?_cons, hk, hjk]
    · by_cases hk : kv.fst = k
      · subst hk
        simp [dictFind, dictUpdate, List.find?_cons, hj] at ih ⊢
        exact ih
      · simp [dictFind, dictUpdate, List.find?_cons, hj, hk] at ih ⊢
        exact ih

theorem dictFind_map_overwrite {α : Type} (ps : List (Nat × α)) (k : Nat) (v : α)
    (h : (ps.find? (fun kv => kv.fst == k)).isSome = true) :
    dictFind (ps.map (fun kv => if kv.fst == k then (k, v) else kv)) k = some v := by
  induction ps with
  | nil => simp at h
  | cons kv tl ih =>
    by_cases hk : kv.fst = k
    · subst hk
      unfold dictFind
      rw [List.map_cons, if_pos (by simp), List.find?_cons_of_pos _ (by simp)]
      rfl
    · rw [List.find?_cons_of_neg _ (by simp [hk])] at h
      unfold dictFind
      rw [List.map_cons, if_neg (by simp [hk]), List.find?_cons_of_neg _ (by simp [hk])]
      exact ih h

theorem dictFind_append_single_self {α : Type} (ps : List (Nat × α)) (k : Nat) (v : α)
    (h : ps.find? (fun kv => kv.fst == k) = none) :
    dictFind (ps ++ [(k, v)]) k = some v := by
  induction ps with
  | nil =>
    unfold dictFind
    rw [List.nil_append, List.find?_cons_of_pos _ (by simp)]
    rfl
  | cons kv tl ih =>
    by_cases hk : kv.fst = k
    · rw [List.find?_cons_of_pos _ (by simp [hk])] at h
      simp at h
    · rw [List.find?_cons_of_neg _ (by simp [hk])] at h
      unfold dictFind
      rw [List.cons_append, List.find?_cons_of_neg _ (by simp [hk])]
      exact ih h

theorem dictFind_dictSet_self {α : Type} (ps : List (Nat × α)) (k : Nat) (v : α) :
    dictFind (dictSet ps k v) k = some v := by
  unfold dictSet
  by_cases hf : (ps.find? (fun kv => kv.fst == k)).isSome
  · rw [if_pos hf]
    exact dictFind_map_overwrite ps k v hf
  · rw [if_neg hf]
    refine dictFind_append_single_self ps k v ?_
    cases hcase : ps.find? (fun kv => kv.fst == k) with
    | none => rfl
    | some e => rw [hcase] at hf; simp at hf

theorem dictFind_erase_self {α : Type} (ps : List (Nat × α)) (k : Nat) :
    dictFind (dictErase ps k) k = none := by
  have hnone : (dictErase ps k).find? (fun kv => kv.fst == k) = none := by
    rw [List.find?_eq_none]
    intro kv hkv
    have hmem := List.mem_filter.mp hkv
    simpa using hmem.2
  simp [dictFind, hnone]

/-- C7: reset_chain increments the chain-reset counter, empties
chain_words and clears last_word, while leaving used_words unchanged;
iterating reset_chain any number of times never changes used_words, so
every word ever accepted in the session stays forbidden. -/
theorem reset_chain_frame (g : WordChainGame) (n : Nat) (w : String) :
    g.reset_chain.chain_resets = g.chain_resets + 1 ∧
    g.reset_chain.current_chain_words = [] ∧
    g.reset_chain.last_word = none ∧
    g.reset_chain.used_words_in_session = g.used_words_in_session ∧
    (WordChainGame.reset_chain^[n] g).used_words_in_session = g.used_words_in_session ∧
    (WordChainGame.reset_chain^[n] g).is_word_used w = g.is_word_used w := by
  have hiter : (WordChainGame.reset_chain^[n] g).used_words_in_session
      = g.used_words_in_session := by
    induction n with
    | zero => rfl
    | succ k ih =>
      rw [Function.iterate_succ_apply']
      exact ih
  refine ⟨rfl, rfl, rfl, rfl, hiter, ?_⟩
  unfold WordChainGame.is_word_used
  rw [hiter]

/-- C6: required_start is none when last_word is none, and otherwise
the lowercased last letters_to_match characters of last_word; in hard
mode with last word "running" it is "ng", "nguyen" matches and "cat"
does not. -/
theorem required_start_spec (g h : WordChainGame) (w : String)
    (hmode : h.game_mode = GameMode.hard) (hlast : h.last_word = some "running") :
    (g.last_word = none → g.required_start = none) ∧
    (g.last_word = some w → w ≠ "" →
      g.required_start = some (pyLower (pySliceLast w g.letters_to_match))) ∧
    h.required_start = some "ng" ∧
    h.matches_required_start "nguyen" = true ∧
    h.matches_required_start "cat" = false := by
  have hltm : h.letters_to_match = 2 := by
    unfold WordChainGame.letters_to_match
    rw [hmode]
    decide
  have hrs : h.required_start = some "ng" := by
    simp only [WordChainGame.required_start, hlast, hltm]
    rw [if_neg (by decide)]
    decide
  refine ⟨?_, ?_, hrs, ?_, ?_⟩
  · intro h0
    simp only [WordChainGame.required_start, h0]
  · intro h1 h2
    simp only [WordChainGame.required_start, h1]
    rw [if_neg h2]
  · simp only [WordChainGame.matches_required_start, hrs]
    decide
  · simp only [WordChainGame.matches_required_start, hrs]
    decide

/-- C6 witness: the hard-mode game with last word "running" at the
concrete inputs of the claim. -/
theorem required_start_spec_witness :
    c6_hard_game.required_start = some "ng" ∧
    c6_hard_game.matches_required_start "nguyen" = true ∧
    c6_hard_game.matches_required_start "cat" = false :=
  ⟨(required_start_spec c6_fresh_game c6_hard_game "x" rfl rfl).2.2.1,
   (required_start_spec c6_fresh_game c6_hard_game "x" rfl rfl).2.2.2.1,
   (required_start_spec c6_fresh_game c6_hard_game "x" rfl rfl).2.2.2.2⟩

/-- C5: end_game removes the game from the active set, so a subsequent
lookup by the same channel returns none, and a second end_game call for
that channel returns none and leaves both the manager state and the
stats store untouched. -/
theorem end_game_not_found (m : GameManagerState) (db : StatsDB) (ch : Nat)
    (w : Option Nat) (h : m.get_game ch = none) : m.end_game db ch w = (m, db, none) := by
  unfold GameManagerState.end_game
  rw [show dictFind m.active_games ch = none from h]

theorem end_game_idempotent (m : GameManagerState) (db : StatsDB) (ch : Nat)
    (w w2 : Option Nat) :
    (m.end_game db ch w).fst.get_game ch = none ∧
    (m.end_game db ch w).fst.end_game (m.end_game db ch w).snd.fst ch w2 =
      ((m.end_game db ch w).fst, (m.end_game db ch w).snd.fst, none) := by
  cases hfind : dictFind m.active_games ch with
  | none =>
    rw [end_game_not_found m db ch w hfind]
    exact ⟨hfind, end_game_not_found m db ch w2 hfind⟩
  | some g =>
    have hstate : (m.end_game db ch w).fst.active_games = dictErase m.active_games ch := by
      unfold GameManagerState.end_game
      rw [hfind]
    have hnone : (m.end_game db ch w).fst.get_game ch = none := by
      unfold GameManagerState.get_game
      rw [hstate]
      exact dictFind_erase_self m.active_games ch
    exact ⟨hnone, end_game_not_found _ _ _ _ hnone⟩

/-- C2 (code behavior at the failing input): eliminating the already
eliminated player 2 again is not a no-op — it returns the player,
re-increments elimination_count to 2 and re-assigns elimination_order
to 2; and, in the three-player scenario, running the timeout handler a
second time for the already-eliminated player 2 changes the stored game
again instead of being a no-op. -/
theorem eliminate_player_not_idempotent :
    (c2_game.eliminate_player 2).snd.isSome = true ∧
    (c2_game.eliminate_player 2).fst.elimination_count = 2 ∧
    (dictFind (c2_game.eliminate_player 2).fst.players 2).map PlayerInfo.elimination_order
      = some (some 2) ∧
    decide (scenario_double_timeout.fst.get_game 100 = scenario_m2.get_game 100) = false := by
  decide

/-- C1 as stated fails on the code: in the concrete run (A=1, B=2, C=3,
word "sea"), after B times out the turn passes to A (user 1), not to C
(user 3), because the timeout handler calls next_turn after the
elimination has already shifted the modulo mapping onto C. -/
theorem scenario_timeout_turn_goes_to_A_not_C :
    decide ((scenario_m2.get_game 100).map WordChainGame.current_player_id
      = some (some 3)) = false ∧
    (scenario_m2.get_game 100).map WordChainGame.current_player_id = some (some 1) := by
  decide

/-- C1 (amended): in the three-player run, the accepted word passes the
turn to B with chain ["sea"]; the timeout eliminates B with rank 1,
clears the chain and passes the turn to A (A and C both active); C
forfeits and is eliminated with rank 2, the game ends with winner A,
the game is removed from the active set, and the stats store records
the win for A. -/
theorem scenario_three_player_run :
    scenario_after_word.snd.snd = SubmissionOutcome.accepted_next_turn 2 ∧
    scenario_g1.current_player_id = some 2 ∧
    scenario_g1.current_chain_words = ["sea"] ∧
    scenario_after_timeout.snd.snd = HandlerEvent.eliminated_next 2 2 ∧
    (dictFind scenario_g2.players 2).map PlayerInfo.is_eliminated = some true ∧
    (dictFind scenario_g2.players 2).map PlayerInfo.elimination_order = some (some 1) ∧
    scenario_g2.current_chain_words = [] ∧
    scenario_g2.last_word = none ∧
    (dictFind scenario_g2.players 1).map PlayerInfo.is_eliminated = some false ∧
    (dictFind scenario_g2.players 3).map PlayerInfo.is_eliminated = some false ∧
    scenario_g2.current_player_id = some 1 ∧
    (scenario_m2.forfeit_player 100 3).snd.map PlayerInfo.elimination_order = some (some 2) ∧
    scenario_after_forfeit.snd.snd = HandlerEvent.eliminated_game_end 3 (some 1) ∧
    scenario_m3.get_game 100 = none ∧
    (statsFind scenario_after_forfeit.snd.fst 1 10).map PlayerStats.games_won = some 1 := by
  decide

theorem isPrefixOf_singleton (x : Char) (l : List Char) :
    ([x].isPrefixOf l = true) ↔ l.head? = some x := by
  cases l with
  | nil => simp [List.isPrefixOf]
  | cons a tl =>
    simp [List.isPrefixOf]
    exact eq_comm

/-- C10: in hard mode with a one-letter last word, required_start is
that whole single letter (the slice silently degrades to the length of
the last word), and a submission matches exactly when its lowercased
form begins with that letter. -/
theorem hard_mode_single_letter_required_start (g : WordChainGame) (c : Char)
    (hmode : g.game_mode = GameMode.hard)
    (hlast : g.last_word = some (String.mk [c])) :
    g.required_start = some (String.mk [Char.toLower c]) ∧
    ∀ word, (g.matches_required_start word = true ↔
      (pyLower word).data.head? = some (Char.toLower c)) := by
  have hne : String.mk [c] ≠ "" := by
    intro hcon
    have hdata : ([c] : List Char) = [] := congrArg String.data hcon
    simp at hdata
  have hltm : g.letters_to_match = 2 := by
    unfold WordChainGame.letters_to_match
    rw [hmode]
    decide
  have hslice : pySliceLast (String.mk [c]) 2 = String.mk [c] := rfl
  have hrs : g.required_start = some (String.mk [Char.toLower c]) := by
    simp only [WordChainGame.required_start, hlast, hltm]
    rw [if_neg hne, hslice]
    rfl
  refine ⟨hrs, ?_⟩
  intro word
  have hne2 : String.mk [Char.toLower c] ≠ "" := by
    intro hcon
    have hdata : ([Char.toLower c] : List Char) = [] := congrArg String.data hcon
    simp at hdata
  simp only [WordChainGame.matches_required_start, hrs]
  rw [if_neg hne2]
  exact isPrefixOf_singleton (Char.toLower c) (pyLower word).data

/-- C10 witness: the hard-mode game whose last word is "a", probed with
the submission "apple". -/
theorem hard_mode_single_letter_witness :
    c10_game.required_start = some (String.mk [Char.toLower 'a']) ∧
    (c10_game.matches_required_start "apple" = true ↔
      (pyLower "apple").data.head? = some (Char.toLower 'a')) :=
  ⟨(hard_mode_single_letter_required_start c10_game 'a' rfl rfl).1,
   (hard_mode_single_letter_required_start c10_game 'a' rfl rfl).2 "apple"⟩

theorem current_player_id_active (g : WordChainGame) (hwf : turn_list_wf g) (uid : Nat)
    (hc : g.current_player_id = some uid) :
    ∃ p, dictFind g.players uid = some p ∧ p.is_eliminated = false := by
  simp only [WordChainGame.current_player_id] at hc
  by_cases h1 : g.turn_order_list.isEmpty
  · rw [if_pos h1] at hc
    exact absurd hc (by simp)
  · rw [if_neg h1] at hc
    by_cases h2 : g.active_ids.isEmpty
    · rw [if_pos h2] at hc
      exact absurd hc (by simp)
    · rw [if_neg h2] at hc
      have hmem : uid ∈ g.active_ids := List.get?_mem hc
      have hsplit := List.mem_filter.mp hmem
      have hturn : uid ∈ g.turn_order_list := hsplit.1
      have helim : g.player_is_eliminated uid = false := by
        have := hsplit.2
        simpa using this
      have hsome := hwf uid hturn
      cases hfp : dictFind g.players uid with
      | none => rw [hfp] at hsome; simp at hsome
      | some p =>
        refine ⟨p, rfl, ?_⟩
        unfold WordChainGame.player_is_eliminated at helim
        rw [hfp] at helim
        exact helim

theorem turn_list_wf_apply_turn_op (g : WordChainGame) (h : turn_list_wf g) (op : TurnOp) :
    turn_list_wf (apply_turn_op g op) := by
  cases op with
  | elim uid =>
    unfold apply_turn_op WordChainGame.eliminate_player
    cases hf : dictFind g.players uid with
    | none =>
      simp only [hf]
      exact h
    | some p =>
      simp only [hf]
      intro u hu
      rw [dictFind_dictUpdate]
      split
      · have hs := h u hu
        cases hfu : dictFind g.players u with
        | none => rw [hfu] at hs; simp at hs
        | some q => simp
      · exact h u hu
  | next =>
    unfold apply_turn_op WordChainGame.next_turn
    dsimp only
    split
    · exact h
    · intro u hu
      exact h u hu

theorem turn_list_wf_apply_turn_ops (ops : List TurnOp) :
    ∀ g : WordChainGame, turn_list_wf g → turn_list_wf (apply_turn_ops g ops) := by
  induction ops with
  | nil => intro g h; exact h
  | cons op tl ih =>
    intro g h
    exact ih _ (turn_list_wf_apply_turn_op g h op)

/-- C4: from any well-formed game state, after any sequence of
eliminate_player and next_turn calls, current_player_id is either none
or the user id of a player whose is_eliminated flag is false. -/
theorem current_player_invariant (g : WordChainGame) (hwf : turn_list_wf g)
    (ops : List TurnOp) (uid : Nat)
    (hc : (apply_turn_ops g ops).current_player_id = some uid) :
    ∃ p, dictFind (apply_turn_ops g ops).players uid = some p ∧ p.is_eliminated = false :=
  current_player_id_active _ (turn_list_wf_apply_turn_ops ops g hwf) uid hc

/-- C4 witness: in the started three-player game, after eliminating
player 2 and advancing the turn, the current player 3 is active. -/
theorem current_player_invariant_witness :
    ∃ p, dictFind (apply_turn_ops scenario_start [TurnOp.elim 2, TurnOp.next]).players 3
        = some p ∧ p.is_eliminated = false :=
  current_player_invariant scenario_start (by unfold turn_list_wf; decide)
    [TurnOp.elim 2, TurnOp.next] 3 (by decide)

theorem get_game_store_game (m : GameManagerState) (ch : Nat) (g : WordChainGame) :
    (m.store_game ch g).get_game ch = some g := by
  unfold GameManagerState.store_game GameManagerState.get_game
  exact dictFind_dictSet_self m.active_games ch g

theorem record_invalid_attempt_spec (m : GameManagerState) (ch a : Nat) (g : WordChainGame)
    (p : PlayerInfo) (hg : m.get_game ch = some g) (hp : dictFind g.players a = some p) :
    penalize m ch a = m.store_game ch (bump_invalid_attempts g a) := by
  unfold penalize GameManagerState.record_invalid_attempt bump_invalid_attempts
  simp only [hg, hp]

theorem on_message_to_process (m : GameManagerState) (db : StatsDB) (ch a : Nat)
    (content : String) (v : WordValidationResult) (g : WordChainGame)
    (hg : m.get_game ch = some g) (hact : g.status = GameStatus.active)
    (hcur : some a = g.current_player_id)
    (hfmt : word_format_ok (pyLower (pyStrip content)) = true) :
    on_message m db ch a false content v
      = process_word m db ch a (pyLower (pyStrip content)) v := by
  unfold on_message
  rw [if_neg (show ¬(false = true) by decide)]
  simp only [hg]
  rw [if_neg (show ¬(g.status ≠ GameStatus.active) from fun hcon => hcon hact),
      if_neg (show ¬(some a ≠ g.current_player_id) from fun hcon => hcon hcur)]
  simp only [hfmt, Bool.not_true]
  rw [if_neg (show ¬(false = true) by decide)]

theorem process_word_used (m : GameManagerState) (db : StatsDB) (ch a : Nat)
    (word : String) (v : WordValidationResult) (g : WordChainGame) (p : PlayerInfo)
    (hg : m.get_game ch = some g) (hp : dictFind g.players a = some p)
    (hu : g.is_word_used word = true) :
    process_word m db ch a word v
      = (penalize m ch a, db, SubmissionOutcome.rejected_already_used) := by
  unfold process_word
  simp only [hg, hp]
  rw [if_pos hu]
  rfl

theorem process_word_wrong_start (m : GameManagerState) (db : StatsDB) (ch a : Nat)
    (word : String) (v : WordValidationResult) (g : WordChainGame) (p : PlayerInfo)
    (hg : m.get_game ch = some g) (hp : dictFind g.players a = some p)
    (hu : g.is_word_used word = false) (hm : g.matches_required_start word = false) :
    process_word m db ch a word v
      = (penalize m ch a, db, SubmissionOutcome.rejected_wrong_start) := by
  unfold process_word
  simp only [hg, hp]
  rw [if_neg (show ¬(g.is_word_used word = true) by rw [hu]; decide), hm]
  rw [if_pos (show (!false) = true by decide)]
  rfl

theorem process_word_plural (m : GameManagerState) (db : StatsDB) (ch a : Nat)
    (word : String) (v : WordValidationResult) (g : WordChainGame) (p : PlayerInfo)
    (hg : m.get_game ch = some g) (hp : dictFind g.players a = some p)
    (hu : g.is_word_used word = false) (hm : g.matches_required_start word = true)
    (hpl : v.is_plural = true) :
    process_word m db ch a word v
      = (penalize m ch a, db, SubmissionOutcome.rejected_plural) := by
  unfold process_word
  simp only [hg, hp]
  rw [if_neg (show ¬(g.is_word_used word = true) by rw [hu]; decide), hm]
  rw [if_neg (show ¬((!true) = true) by decide), if_pos hpl]
  rfl

theorem process_word_invalid (m : GameManagerState) (db : StatsDB) (ch a : Nat)
    (word : String) (v : WordValidationResult) (g : WordChainGame) (p : PlayerInfo)
    (hg : m.get_game ch = some g) (hp : dictFind g.players a = some p)
    (hu : g.is_word_used word = false) (hm : g.matches_required_start word = true)
    (hpl : v.is_plural = false) (hv : v.is_valid = false) :
    process_word m db ch a word v
      = (penalize m ch a, db, SubmissionOutcome.rejected_invalid) := by
  unfold process_word
  simp only [hg, hp]
  rw [if_neg (show ¬(g.is_word_used word = true) by rw [hu]; decide), hm]
  rw [if_neg (show ¬((!true) = true) by decide),
      if_neg (show ¬(v.is_plural = true) by rw [hpl]; decide), hv]
  rw [if_pos (show (!false) = true by decide)]
  rfl

theorem process_word_accept_next (m : GameManagerState) (db : StatsDB) (ch a : Nat)
    (word : String) (v : WordValidationResult) (g : WordChainGame) (p : PlayerInfo)
    (g2 : WordChainGame) (nid : Nat)
    (hg : m.get_game ch = some g) (hp : dictFind g.players a = some p)
    (hact : g.status = GameStatus.active)
    (hu : g.is_word_used word = false) (hm : g.matches_required_start word = true)
    (hpl : v.is_plural = false) (hv : v.is_valid = true)
    (hnext : (g.add_word word a).next_turn = (g2, some nid)) :
    process_word m db ch a word v
      = (((m.store_game ch (g.add_word word a)).store_game ch g2).set_timer_task ch,
         update_longest_word db a g.guild_id word,
         SubmissionOutcome.accepted_next_turn nid) := by
  have hrec : (m.record_word ch word a).fst = m.store_game ch (g.add_word word a) := by
    unfold GameManagerState.record_word
    simp only [hg]
    rw [if_neg (show ¬(g.status ≠ GameStatus.active) from fun hcon => hcon hact)]
  unfold process_word
  simp only [hg, hp]
  rw [if_neg (show ¬(g.is_word_used word = true) by rw [hu]; decide), hm]
  rw [if_neg (show ¬((!true) = true) by decide),
      if_neg (show ¬(v.is_plural = true) by rw [hpl]; decide), hv]
  rw [if_neg (show ¬((!true) = true) by decide)]
  simp only [hrec, get_game_store_game, hnext]

/-- C3: for a submission to an active game, the checks run in the fixed
order already-used, wrong-start, plural, not-a-valid-word; the first
failing check short-circuits into a rejection whose only game-state
mutation is bumping the submitting player's invalid_attempts by one
(turn index, chain, used words, last word, status and every other
player's entry unchanged), and a submission by a player who does not
hold the turn is ignored with no mutation at all. -/
theorem submission_pipeline (m : GameManagerState) (db : StatsDB) (ch a : Nat)
    (content : String) (v : WordValidationResult) (g : WordChainGame) (word : String)
    (hg : m.get_game ch = some g) (hact : g.status = GameStatus.active)
    (hword : word = pyLower (pyStrip content)) :
    (some a ≠ g.current_player_id →
      on_message m db ch a false content v = (m, db, SubmissionOutcome.ignored)) ∧
    (some a = g.current_player_id → turn_list_wf g → word_format_ok word = true →
      ((g.is_word_used word = true →
         on_message m db ch a false content v
           = (penalize m ch a, db, SubmissionOutcome.rejected_already_used)) ∧
       (g.is_word_used word = false → g.matches_required_start word = false →
         on_message m db ch a false content v
           = (penalize m ch a, db, SubmissionOutcome.rejected_wrong_start)) ∧
       (g.is_word_used word = false → g.matches_required_start word = true →
        v.is_plural = true →
         on_message m db ch a false content v
           = (penalize m ch a, db, SubmissionOutcome.rejected_plural)) ∧
       (g.is_word_used word = false → g.matches_required_start word = true →
        v.is_plural = false → v.is_valid = false →
         on_message m db ch a false content v
           = (penalize m ch a, db, SubmissionOutcome.rejected_invalid)))) ∧
    (some a = g.current_player_id → turn_list_wf g →
      ∃ g1, (penalize m ch a).get_game ch = some g1 ∧
        g1.current_turn_index = g.current_turn_index ∧
        g1.current_chain_words = g.current_chain_words ∧
        g1.used_words_in_session = g.used_words_in_session ∧
        g1.last_word = g.last_word ∧
        g1.status = g.status ∧
        (∀ u, u ≠ a → dictFind g1.players u = dictFind g.players u) ∧
        dictFind g1.players a
          = (dictFind g.players a).map
              (fun q => { q with invalid_attempts := q.invalid_attempts + 1 })) := by
  subst hword
  refine ⟨?_, ?_, ?_⟩
  · intro hne
    unfold on_message
    rw [if_neg (show ¬(false = true) by decide)]
    simp only [hg]
    rw [if_neg (show ¬(g.status ≠ GameStatus.active) from fun hcon => hcon hact),
        if_pos hne]
  · intro hcur hwf hfmt
    obtain ⟨p, hp, _⟩ := current_player_id_active g hwf a hcur.symm
    refine ⟨?_, ?_, ?_, ?_⟩
    · intro hu
      rw [on_message_to_process m db ch a content v g hg hact hcur hfmt]
      exact process_word_used m db ch a _ v g p hg hp hu
    · intro hu hm
      rw [on_message_to_process m db ch a content v g hg hact hcur hfmt]
      exact process_word_wrong_start m db ch a _ v g p hg hp hu hm
    · intro hu hm hpl
      rw [on_message_to_process m db ch a content v g hg hact hcur hfmt]
      exact process_word_plural m db ch a _ v g p hg hp hu hm hpl
    · intro hu hm hpl hv
      rw [on_message_to_process m db ch a content v g hg hact hcur hfmt]
      exact process_word_invalid m db ch a _ v g p hg hp hu hm hpl hv
  · intro hcur hwf
    obtain ⟨p, hp, _⟩ := current_player_id_active g hwf a hcur.symm
    rw [record_invalid_attempt_spec m ch a g p hg hp]
    refine ⟨bump_invalid_attempts g a,
            get_game_store_game m ch (bump_invalid_attempts g a),
            rfl, rfl, rfl, rfl, rfl, ?_, ?_⟩
    · intro u hu
      simp only [bump_invalid_attempts]
      rw [dictFind_dictUpdate, if_neg hu]
    · simp only [bump_invalid_attempts]
      rw [dictFind_dictUpdate, if_pos rfl]

/-- C3 witness: in the state after A played "sea", player B (the
current player) resubmits "sea" and is rejected as already used, with
only the invalid-attempt bump applied. -/
theorem submission_pipeline_witness :
    on_message scenario_m1 [] 100 2 false "sea" v_sea
      = (penalize scenario_m1 100 2, [], SubmissionOutcome.rejected_already_used) :=
  ((submission_pipeline scenario_m1 [] 100 2 "sea" v_sea scenario_g1 "sea"
      (by decide) (by decide) (by decide)).2.1
    (by decide) (by unfold turn_list_wf; decide) (by decide)).1 (by decide)

theorem update_longest_word_counters (db : StatsDB) (uid gid : Nat) (w : String) :
    (update_longest_word db uid gid w).map statsCounters = db.map statsCounters := by
  unfold update_longest_word
  cases hf : statsFind db uid gid with
  | none => rfl
  | some s =>
    dsimp only
    split
    · rw [List.map_map]
      refine List.map_congr_left ?_
      intro t _
      simp only [Function.comp]
      split <;> rfl
    · rfl

theorem statsFind_map_keyfix (db : StatsDB) (f : PlayerStats → PlayerStats)
    (hkey : ∀ r, (f r).user_id = r.user_id ∧ (f r).guild_id = r.guild_id) (u g2 : Nat) :
    statsFind (db.map f) u g2 = (statsFind db u g2).map f := by
  unfold statsFind
  rw [List.find?_map]
  have hfun : ((fun s => s.user_id == u && s.guild_id == g2) ∘ f)
      = (fun s : PlayerStats => s.user_id == u && s.guild_id == g2) := by
    funext r
    simp [Function.comp, (hkey r).1, (hkey r).2]
  rw [hfun]

theorem update_one_key_fields (db : StatsDB) (gid : Nat) (w : Option Nat)
    (p : PlayerInfo) (s0 : PlayerStats) (hs0 : statsFind db p.user_id gid = some s0) :
    ∃ s3 : PlayerStats, s3.user_id = s0.user_id ∧ s3.guild_id = s0.guild_id ∧
      s3.longest_word = s0.longest_word ∧
      update_one_player_stats db gid w p
        = db.map (fun s => if s.user_id == p.user_id && s.guild_id == gid then s3 else s) := by
  unfold update_one_player_stats
  rw [hs0]
  dsimp only
  refine ⟨_, ?_, ?_, ?_, rfl⟩
  · repeat' split
    all_goals rfl
  · repeat' split
    all_goals rfl
  · repeat' split
    all_goals rfl

theorem update_one_player_stats_longest (db : StatsDB) (gid : Nat) (w : Option Nat)
    (p : PlayerInfo) (hex : (statsFind db p.user_id gid).isSome = true) :
    ∀ u g2,
      ((statsFind (update_one_player_stats db gid w p) u g2).map PlayerStats.longest_word
        = (statsFind db u g2).map PlayerStats.longest_word) ∧
      ((statsFind (update_one_player_stats db gid w p) u g2).isSome
        = (statsFind db u g2).isSome) := by
  obtain ⟨s0, hs0⟩ := Option.isSome_iff_exists.mp hex
  have hs0f : db.find? (fun s => s.user_id == p.user_id && s.guild_id == gid) = some s0 := hs0
  have hs0key : s0.user_id = p.user_id ∧ s0.guild_id = gid := by
    simpa using List.find?_some hs0f
  obtain ⟨s3, hu3, hg3, hl3, heq⟩ := update_one_key_fields db gid w p s0 hs0
  intro u g2
  have hkey : ∀ r : PlayerStats,
      ((fun s => if s.user_id == p.user_id && s.guild_id == gid then s3 else s) r).user_id
        = r.user_id ∧
      ((fun s => if s.user_id == p.user_id && s.guild_id == gid then s3 else s) r).guild_id
        = r.guild_id := by
    intro r
    dsimp only
    split
    case isTrue h =>
      have hr : r.user_id = p.user_id ∧ r.guild_id = gid := by simpa using h
      exact ⟨by rw [hu3, hs0key.1, hr.1], by rw [hg3, hs0key.2, hr.2]⟩
    case isFalse h => exact ⟨rfl, rfl⟩
  rw [heq, statsFind_map_keyfix db _ hkey u g2]
  constructor
  · cases hr : statsFind db u g2 with
    | none => rfl
    | some r =>
      simp only [Option.map_some']
      congr 1
      split
      case isTrue h =>
        have hrkey : r.user_id = p.user_id ∧ r.guild_id = gid := by simpa using h
        have hrf : db.find? (fun s => s.user_id == u && s.guild_id == g2) = some r := hr
        have hrug : r.user_id = u ∧ r.guild_id = g2 := by
          simpa using List.find?_some hrf
        have hukey : u = p.user_id ∧ g2 = gid :=
          ⟨by rw [← hrug.1, hrkey.1], by rw [← hrug.2, hrkey.2]⟩
        have hsame : some r = some s0 := by rw [← hr, hukey.1, hukey.2, hs0]
        rw [hl3]
        injection hsame with h2
        rw [h2]
      case isFalse h => rfl
  · cases statsFind db u g2 <;> rfl

theorem foldl_update_stats_longest (gid : Nat) (w : Option Nat) :
    ∀ (l : List PlayerInfo) (db : StatsDB),
      (∀ p ∈ l, (statsFind db p.user_id gid).isSome = true) →
      ∀ u g2,
        (statsFind (l.foldl (fun acc p => update_one_player_stats acc gid w p) db) u g2).map
            PlayerStats.longest_word
          = (statsFind db u g2).map PlayerStats.longest_word := by
  intro l
  induction l with
  | nil => intro db _ u g2; rfl
  | cons p tl ih =>
    intro db hrows u g2
    have hex := hrows p (List.mem_cons_self p tl)
    have hone := update_one_player_stats_longest db gid w p hex
    have hrows2 : ∀ q ∈ tl,
        (statsFind (update_one_player_stats db gid w p) q.user_id gid).isSome = true := by
      intro q hq
      rw [(hone q.user_id gid).2]
      exact hrows q (List.mem_cons_of_mem p hq)
    rw [List.foldl_cons, ih (update_one_player_stats db gid w p) hrows2 u g2]
    exact (hone u g2).1

/-- C8 fails on the code as stated: in the active scenario game,
player 1 submits the accepted word "elephant" and the persisted
PlayerStats table changes during play — the longest_word column of
player 1's row is overwritten while the game status is active. -/
theorem stats_mutated_during_play :
    (scenario_m0.get_game 100).map WordChainGame.status = some GameStatus.active ∧
    c8_run.snd.snd = SubmissionOutcome.accepted_next_turn 2 ∧
    decide (c8_run.snd.fst = c8_db) = false ∧
    (statsFind c8_run.snd.fst 1 10).map PlayerStats.longest_word
      = some (some "elephant") := by
  decide

/-- C8 (amended): during play, rejected submissions never touch the
PlayerStats table, and an accepted word that does not end the game
touches only the longest_word column (every aggregate counter is
unchanged, the whole effect being _update_longest_word); the game-end
update in turn never touches longest_word when every participant
already has a stats row. -/
theorem player_stats_update_timing (m : GameManagerState) (db : StatsDB) (ch a : Nat)
    (content : String) (v : WordValidationResult) (g : WordChainGame) (word : String)
    (w2 : Option Nat)
    (hg : m.get_game ch = some g) (hact : g.status = GameStatus.active)
    (hword : word = pyLower (pyStrip content)) :
    (some a = g.current_player_id → turn_list_wf g → word_format_ok word = true →
      ((g.is_word_used word = true →
         (on_message m db ch a false content v).snd.fst = db) ∧
       (g.is_word_used word = false → g.matches_required_start word = false →
         (on_message m db ch a false content v).snd.fst = db) ∧
       (g.is_word_used word = false → g.matches_required_start word = true →
        v.is_plural = true →
         (on_message m db ch a false content v).snd.fst = db) ∧
       (g.is_word_used word = false → g.matches_required_start word = true →
        v.is_plural = false → v.is_valid = false →
         (on_message m db ch a false content v).snd.fst = db) ∧
       (∀ g2 nid, g.is_word_used word = false → g.matches_required_start word = true →
        v.is_plural = false → v.is_valid = true →
        (g.add_word word a).next_turn = (g2, some nid) →
         (on_message m db ch a false content v).snd.fst
             = update_longest_word db a g.guild_id word ∧
         (on_message m db ch a false content v).snd.fst.map statsCounters
             = db.map statsCounters))) ∧
    ((∀ p ∈ g.players.map Prod.snd, (statsFind db p.user_id g.guild_id).isSome = true) →
      ∀ u g2, (statsFind (m.end_game db ch w2).snd.fst u g2).map PlayerStats.longest_word
        = (statsFind db u g2).map PlayerStats.longest_word) := by
  subst hword
  constructor
  · intro hcur hwf hfmt
    obtain ⟨p, hp, _⟩ := current_player_id_active g hwf a hcur.symm
    refine ⟨?_, ?_, ?_, ?_, ?_⟩
    · intro hu
      rw [on_message_to_process m db ch a content v g hg hact hcur hfmt,
          process_word_used m db ch a _ v g p hg hp hu]
    · intro hu hm
      rw [on_message_to_process m db ch a content v g hg hact hcur hfmt,
          process_word_wrong_start m db ch a _ v g p hg hp hu hm]
    · intro hu hm hpl
      rw [on_message_to_process m db ch a content v g hg hact hcur hfmt,
          process_word_plural m db ch a _ v g p hg hp hu hm hpl]
    · intro hu hm hpl hv
      rw [on_message_to_process m db ch a content v g hg hact hcur hfmt,
          process_word_invalid m db ch a _ v g p hg hp hu hm hpl hv]
    · intro g2 nid hu hm hpl hv hnext
      rw [on_message_to_process m db ch a content v g hg hact hcur hfmt,
          process_word_accept_next m db ch a _ v g p g2 nid hg hp hact hu hm hpl hv hnext]
      exact ⟨rfl, update_longest_word_counters db a g.guild_id _⟩
  · intro hrows u g2
    unfold GameManagerState.end_game
    rw [show dictFind m.active_games ch = some g from hg]
    exact foldl_update_stats_longest g.guild_id _ (g.players.map Prod.snd) db hrows u g2

/-- C8 witness: the game-end stats update over the scenario game with a
pre-existing row for every player leaves player 1's longest_word
column unchanged. -/
theorem player_stats_update_timing_witness :
    (statsFind (scenario_m0.end_game c8_full_db 100 (some 1)).snd.fst 1 10).map
        PlayerStats.longest_word
      = (statsFind c8_full_db 1 10).map PlayerStats.longest_word :=
  (player_stats_update_timing scenario_m0 c8_full_db 100 1 "sea" v_sea scenario_start "sea"
      (some 1) (by decide) (by decide) (by decide)).2 (by decide) 1 10

theorem find?_fresh_after_overwrite (w l : String) (r : WordValidationResult)
    (now t2 ttl : Nat) (hfresh : t2 - ttl ≤ now) :
    ∀ (cache : List WordCache) (e0 : WordCache),
      cache.find? (cacheKeyMatch w l) = some e0 →
      ∃ c, (cache.map (fun e => if cacheKeyMatch w l e then overwrite_entry r now e else e)).find?
            (fun e => cacheKeyMatch w l e && decide (t2 - ttl ≤ e.validated_at)) = some c ∧
        c.is_valid = r.is_valid ∧ c.is_plural = r.is_plural ∧
        c.word_type = r.word_type ∧ c.ai_reason = r.reason := by
  intro cache
  induction cache with
  | nil =>
    intro e0 h
    simp at h
  | cons e tl ih =>
    intro e0 h
    by_cases hk : cacheKeyMatch w l e = true
    · have hpos : (cacheKeyMatch w l (overwrite_entry r now e)
          && decide (t2 - ttl ≤ (overwrite_entry r now e).validated_at)) = true := by
        rw [show cacheKeyMatch w l (overwrite_entry r now e) = cacheKeyMatch w l e from rfl, hk]
        simp [overwrite_entry, hfresh]
      refine ⟨overwrite_entry r now e, ?_, rfl, rfl, rfl, rfl⟩
      rw [List.map_cons, if_pos hk]
      exact List.find?_cons_of_pos _ hpos
    · rw [List.find?_cons_of_neg _ hk] at h
      obtain ⟨c, hc, h1, h2, h3, h4⟩ := ih e0 h
      have hneg : ¬((cacheKeyMatch w l e && decide (t2 - ttl ≤ e.validated_at)) = true) := by
        intro hcon
        have hparts : cacheKeyMatch w l e = true ∧ t2 - ttl ≤ e.validated_at := by
          simpa using hcon
        exact hk hparts.1
      refine ⟨c, ?_, h1, h2, h3, h4⟩
      rw [List.map_cons, if_neg hk]
      refine Eq.trans ?_ hc
      exact List.find?_cons_of_neg _ hneg

theorem check_cache_after_store (cache : List WordCache) (w l : String)
    (r : WordValidationResult) (now t2 ttl : Nat) (hfresh : t2 - ttl ≤ now) :
    check_cache (store_in_cache cache w l r now) w l t2 ttl
      = some { word := w, is_valid := r.is_valid, is_plural := r.is_plural,
               word_type := r.word_type, reason := r.reason, from_cache := true } := by
  unfold store_in_cache
  cases hf : cache.find? (cacheKeyMatch w l) with
  | none =>
    unfold check_cache
    dsimp only
    have hold : cache.find?
        (fun e => cacheKeyMatch w l e && decide (t2 - ttl ≤ e.validated_at)) = none := by
      rw [List.find?_eq_none]
      intro e he hcon
      have hparts : cacheKeyMatch w l e = true ∧ t2 - ttl ≤ e.validated_at := by
        simpa using hcon
      exact (List.find?_eq_none.mp hf e he) hparts.1
    have hpos : (cacheKeyMatch w l (fresh_entry w l r now)
        && decide (t2 - ttl ≤ (fresh_entry w l r now).validated_at)) = true := by
      simp [fresh_entry, cacheKeyMatch, hfresh]
    have happend : List.find? (fun e => cacheKeyMatch w l e && decide (t2 - ttl ≤ e.validated_at))
        (cache ++ [fresh_entry w l r now]) = some (fresh_entry w l r now) := by
      rw [List.find?_append, hold, Option.none_or]
      exact List.find?_cons_of_pos _ hpos
    simp only [happend]
    rfl
  | some e0 =>
    obtain ⟨c, hc, h1, h2, h3, h4⟩ :=
      find?_fresh_after_overwrite w l r now t2 ttl hfresh cache e0 hf
    unfold check_cache
    dsimp only
    simp only [hc, h1, h2, h3, h4]

theorem check_cache_none_of_stale (cache : List WordCache) (w l : String) (t2 ttl : Nat)
    (hstale : ∀ e ∈ cache, cacheKeyMatch w l e = true → e.validated_at < t2 - ttl) :
    check_cache cache w l t2 ttl = none := by
  unfold check_cache
  dsimp only
  have hnone : cache.find?
      (fun e => cacheKeyMatch w l e && decide (t2 - ttl ≤ e.validated_at)) = none := by
    rw [List.find?_eq_none]
    intro e he hcon
    have hparts : cacheKeyMatch w l e = true ∧ t2 - ttl ≤ e.validated_at := by
      simpa using hcon
    have hlt := hstale e he hparts.1
    omega
  rw [hnone]

theorem store_in_cache_overwrites (cache : List WordCache) (w l : String)
    (r : WordValidationResult) (now : Nat)
    (hone : (cache.filter (cacheKeyMatch w l)).length = 1) :
    ((store_in_cache cache w l r now).filter (cacheKeyMatch w l)).length = 1 ∧
    ∀ e ∈ (store_in_cache cache w l r now).filter (cacheKeyMatch w l),
      e.validated_at = now ∧ e.is_valid = r.is_valid := by
  have hfind : (cache.find? (cacheKeyMatch w l)).isSome := by
    cases hcase : cache.find? (cacheKeyMatch w l) with
    | some e => simp
    | none =>
      have hnil : cache.filter (cacheKeyMatch w l) = [] := by
        rw [List.filter_eq_nil_iff]
        intro e he
        have := List.find?_eq_none.mp hcase e he
        simpa using this
      rw [hnil] at hone
      simp at hone
  obtain ⟨e0, he0⟩ := Option.isSome_iff_exists.mp hfind
  unfold store_in_cache
  rw [he0]
  rw [List.filter_map]
  have hpf : (cacheKeyMatch w l
      ∘ (fun e => if cacheKeyMatch w l e then overwrite_entry r now e else e))
      = cacheKeyMatch w l := by
    funext e
    simp only [Function.comp]
    split <;> rfl
  rw [hpf]
  constructor
  · rw [List.length_map]
    exact hone
  · intro e he
    obtain ⟨x, hx, hfx⟩ := List.mem_map.mp he
    have hxkey : cacheKeyMatch w l x = true := (List.mem_filter.mp hx).2
    rw [← hfx]
    rw [if_pos hxkey]
    exact ⟨rfl, rfl⟩

/-- C9: a validation that consulted the provider stores the verdict
stamped with the call time; re-validating the same (word, language)
within the TTL window is then served from that cache row (no provider
call, verdict unchanged, cache unchanged), while re-validating after
every row for the key is older than the window consults the provider
again and overwrites the existing row in place (same row count, fresh
timestamp and verdict) instead of duplicating it. -/
theorem cache_ttl_behavior (cache : List WordCache) (word language : String)
    (p1 p2 : WordValidationResult) (t1 t2 ttl : Nat) :
    ((validate_word cache word language p1 t1 ttl).snd.snd = true →
     t2 - ttl ≤ t1 →
     validate_word (validate_word cache word language p1 t1 ttl).snd.fst
         word language p2 t2 ttl
       = ({ word := pyStrip (pyLower word), is_valid := p1.is_valid,
            is_plural := p1.is_plural, word_type := p1.word_type,
            reason := p1.reason, from_cache := true },
          (validate_word cache word language p1 t1 ttl).snd.fst, false)) ∧
    ((∀ e ∈ cache, cacheKeyMatch (pyStrip (pyLower word)) language e = true →
        e.validated_at < t2 - ttl) →
     ((validate_word cache word language p2 t2 ttl).snd.snd = true ∧
      ((cache.filter (cacheKeyMatch (pyStrip (pyLower word)) language)).length = 1 →
       (((validate_word cache word language p2 t2 ttl).snd.fst.filter
           (cacheKeyMatch (pyStrip (pyLower word)) language)).length = 1 ∧
        ∀ e ∈ (validate_word cache word language p2 t2 ttl).snd.fst.filter
            (cacheKeyMatch (pyStrip (pyLower word)) language),
          e.validated_at = t2 ∧ e.is_valid = p2.is_valid)))) := by
  constructor
  · intro hcall hfresh
    have hmiss : check_cache cache (pyStrip (pyLower word)) language t1 ttl = none := by
      cases hc : check_cache cache (pyStrip (pyLower word)) language t1 ttl with
      | none => rfl
      | some rr =>
        unfold validate_word at hcall
        simp only [hc] at hcall
        exact absurd hcall (by decide)
    have hc1 : (validate_word cache word language p1 t1 ttl).snd.fst
        = store_in_cache cache (pyStrip (pyLower word)) language p1 t1 := by
      unfold validate_word
      simp only [hmiss]
    rw [hc1]
    unfold validate_word
    simp only [check_cache_after_store cache (pyStrip (pyLower word)) language p1 t1 t2 ttl
      hfresh]
  · intro hstale
    have hmiss2 : check_cache cache (pyStrip (pyLower word)) language t2 ttl = none :=
      check_cache_none_of_stale cache _ language t2 ttl hstale
    have hstore : (validate_word cache word language p2 t2 ttl).snd.fst
        = store_in_cache cache (pyStrip (pyLower word)) language p2 t2 := by
      unfold validate_word
      simp only [hmiss2]
    constructor
    · unfold validate_word
      simp only [hmiss2]
    · intro hone
      rw [hstore]
      exact store_in_cache_overwrites cache _ language p2 t2 hone

/-- C9 witness: validating "sea" on an empty cache at time 50 calls the
provider; re-validating at time 70 with TTL 30 is served from the
cache, and validating against the stale row at time 200 calls the
provider and overwrites the row. -/
theorem cache_ttl_behavior_witness :
    (validate_word (validate_word ([] : List WordCache) "sea" "en" v_sea 50 30).snd.fst
        "sea" "en" v_sea 70 30
      = ({ word := pyStrip (pyLower "sea"), is_valid := v_sea.is_valid,
           is_plural := v_sea.is_plural, word_type := v_sea.word_type,
           reason := v_sea.reason, from_cache := true },
         (validate_word ([] : List WordCache) "sea" "en" v_sea 50 30).snd.fst, false)) ∧
    ((validate_word c9_stale_cache "sea" "en" v_sea 200 30).snd.snd = true ∧
     ((c9_stale_cache.filter (cacheKeyMatch (pyStrip (pyLower "sea")) "en")).length = 1 →
      (((validate_word c9_stale_cache "sea" "en" v_sea 200 30).snd.fst.filter
          (cacheKeyMatch (pyStrip (pyLower "sea")) "en")).length = 1 ∧
       ∀ e ∈ (validate_word c9_stale_cache "sea" "en" v_sea 200 30).snd.fst.filter
           (cacheKeyMatch (pyStrip (pyLower "sea")) "en"),
         e.validated_at = 200 ∧ e.is_valid = v_sea.is_valid))) :=
  ⟨(cache_ttl_behavior ([] : List WordCache) "sea" "en" v_sea v_sea 50 70 30).1
      (by decide) (by decide),
   (cache_ttl_behavior c9_stale_cache "sea" "en" v_sea v_sea 0 200 30).2 (by decide)⟩

end WordChainBot
